import Mathlib

/-
  Shallow embedding of the excavator simulator (TypeScript, three.js + cannon-es)
  over exact rational arithmetic.  Definitions mirror the source: the
  Excavator class (joint setters, physics construction, ground-contact
  detection, collision ledger, tread forces) and the ExcavatorSimulator
  control merging.
-/

namespace ExcavatorSim

/-- Math.min on finite doubles: the smaller argument. -/
def mathMin (a b : ℚ) : ℚ := if a ≤ b then a else b

/-- Math.max on finite doubles: the larger argument. -/
def mathMax (a b : ℚ) : ℚ := if a ≤ b then b else a

/-- THREE.MathUtils.clamp(value, min, max) = Math.max(min, Math.min(max, value)). -/
def clamp (value lo hi : ℚ) : ℚ := mathMax lo (mathMin hi value)

-- Control limits (Excavator class constants).  BUCKET_MIN_ANGLE is
-- -Math.PI / 2 in the source; the IEEE-754 double of pi/2 is the dyadic
-- rational 884279719003555 / 2^49.
def ARM1_MIN_ANGLE : ℚ := 0
def ARM1_MAX_ANGLE : ℚ := 125/100
def ARM2_MIN_ANGLE : ℚ := 25/100
def ARM2_MAX_ANGLE : ℚ := 225/100
def BUCKET_MIN_ANGLE : ℚ := -(884279719003555/562949953421312)
def BUCKET_MAX_ANGLE : ℚ := 8/10
def THUMB_MIN_ANGLE : ℚ := -3
def THUMB_MAX_ANGLE : ℚ := -(2/10)
def BLADE_MIN_HEIGHT : ℚ := -(5/10)
def BLADE_MAX_HEIGHT : ℚ := -(2/10)

/-- The mutable control state of the Excavator class: the six joint values
and the five at-limit flags. -/
structure ControlState where
  mainBodyRotation : ℚ
  arm1Angle : ℚ
  arm2Angle : ℚ
  bucketAngle : ℚ
  thumbAngle : ℚ
  bladeHeight : ℚ
  arm1AtLimit : Bool
  arm2AtLimit : Bool
  bucketAtLimit : Bool
  thumbAtLimit : Bool
  bladeAtLimit : Bool
deriving DecidableEq

/-- Field initializers of the Excavator class. -/
def initialControlState : ControlState where
  mainBodyRotation := 0
  arm1Angle := 0
  arm2Angle := 25/100
  bucketAngle := 0
  thumbAngle := -(2/10)
  bladeHeight := -(2/10)
  arm1AtLimit := false
  arm2AtLimit := false
  bucketAtLimit := false
  thumbAtLimit := false
  bladeAtLimit := false

/-- Excavator.setMainBodyRotation: unclamped accumulation. -/
def setMainBodyRotation (s : ControlState) (delta : ℚ) : ControlState :=
  { s with mainBodyRotation := s.mainBodyRotation + delta }

/-- Excavator.setArm1Angle. -/
def setArm1Angle (s : ControlState) (delta : ℚ) : ControlState :=
  let oldAngle := s.arm1Angle
  let newAngle := clamp (s.arm1Angle + delta) ARM1_MIN_ANGLE ARM1_MAX_ANGLE
  { s with arm1Angle := newAngle,
           arm1AtLimit := decide (delta ≠ 0 ∧ newAngle = oldAngle) }

/-- Excavator.setArm2Angle. -/
def setArm2Angle (s : ControlState) (delta : ℚ) : ControlState :=
  let oldAngle := s.arm2Angle
  let newAngle := clamp (s.arm2Angle + delta) ARM2_MIN_ANGLE ARM2_MAX_ANGLE
  { s with arm2Angle := newAngle,
           arm2AtLimit := decide (delta ≠ 0 ∧ newAngle = oldAngle) }

/-- Excavator.setBucketAngle. -/
def setBucketAngle (s : ControlState) (delta : ℚ) : ControlState :=
  let oldAngle := s.bucketAngle
  let newAngle := clamp (s.bucketAngle + delta) BUCKET_MIN_ANGLE BUCKET_MAX_ANGLE
  { s with bucketAngle := newAngle,
           bucketAtLimit := decide (delta ≠ 0 ∧ newAngle = oldAngle) }

/-- Excavator.setThumbAngle. -/
def setThumbAngle (s : ControlState) (delta : ℚ) : ControlState :=
  let oldAngle := s.thumbAngle
  let newAngle := clamp (s.thumbAngle + delta) THUMB_MIN_ANGLE THUMB_MAX_ANGLE
  { s with thumbAngle := newAngle,
           thumbAtLimit := decide (delta ≠ 0 ∧ newAngle = oldAngle) }

/-- Excavator.setBladeHeight. -/
def setBladeHeight (s : ControlState) (delta : ℚ) : ControlState :=
  let oldHeight := s.bladeHeight
  let newHeight := clamp (s.bladeHeight + delta) BLADE_MIN_HEIGHT BLADE_MAX_HEIGHT
  { s with bladeHeight := newHeight,
           bladeAtLimit := decide (delta ≠ 0 ∧ newHeight = oldHeight) }

/-- Apply a setter to a whole sequence of deltas, left to right. -/
def applyDeltas (f : ControlState → ℚ → ControlState) (s : ControlState)
    (ds : List ℚ) : ControlState :=
  ds.foldl f s

lemma clamp_mem (x lo hi : ℚ) (h : lo ≤ hi) :
    lo ≤ clamp x lo hi ∧ clamp x lo hi ≤ hi := by
  unfold clamp mathMax mathMin
  split_ifs <;> constructor <;> linarith

/-- C1: each of the five limited joint setters stores the clamp of
current + delta into that joint's fixed range, and the at-limit flag is true
exactly when delta is nonzero and the stored value equals the previous one. -/
theorem C1_setters_clamp_and_flag (s : ControlState) (d : ℚ) :
    ((setArm1Angle s d).arm1Angle = clamp (s.arm1Angle + d) ARM1_MIN_ANGLE ARM1_MAX_ANGLE ∧
      ((setArm1Angle s d).arm1AtLimit = true ↔
        d ≠ 0 ∧ (setArm1Angle s d).arm1Angle = s.arm1Angle)) ∧
    ((setArm2Angle s d).arm2Angle = clamp (s.arm2Angle + d) ARM2_MIN_ANGLE ARM2_MAX_ANGLE ∧
      ((setArm2Angle s d).arm2AtLimit = true ↔
        d ≠ 0 ∧ (setArm2Angle s d).arm2Angle = s.arm2Angle)) ∧
    ((setBucketAngle s d).bucketAngle = clamp (s.bucketAngle + d) BUCKET_MIN_ANGLE BUCKET_MAX_ANGLE ∧
      ((setBucketAngle s d).bucketAtLimit = true ↔
        d ≠ 0 ∧ (setBucketAngle s d).bucketAngle = s.bucketAngle)) ∧
    ((setThumbAngle s d).thumbAngle = clamp (s.thumbAngle + d) THUMB_MIN_ANGLE THUMB_MAX_ANGLE ∧
      ((setThumbAngle s d).thumbAtLimit = true ↔
        d ≠ 0 ∧ (setThumbAngle s d).thumbAngle = s.thumbAngle)) ∧
    ((setBladeHeight s d).bladeHeight = clamp (s.bladeHeight + d) BLADE_MIN_HEIGHT BLADE_MAX_HEIGHT ∧
      ((setBladeHeight s d).bladeAtLimit = true ↔
        d ≠ 0 ∧ (setBladeHeight s d).bladeHeight = s.bladeHeight)) := by
  refine ⟨⟨rfl, ?_⟩, ⟨rfl, ?_⟩, ⟨rfl, ?_⟩, ⟨rfl, ?_⟩, ⟨rfl, ?_⟩⟩ <;>
    simp [setArm1Angle, setArm2Angle, setBucketAngle, setThumbAngle, setBladeHeight]

/-- C2 counterexample: with the arm1 joint (range [0, 1.25]) at its initial
value 0, a delta of +2 stores 1.25 but the at-limit flag is false, because the
stored value changed; the claimed at-limit = true is refuted. -/
theorem C2_counterexample :
    ¬ ((setArm1Angle initialControlState 2).arm1Angle = 125/100 ∧
       (setArm1Angle initialControlState 2).arm1AtLimit = true) := by
  unfold setArm1Angle initialControlState clamp mathMax mathMin ARM1_MIN_ANGLE ARM1_MAX_ANGLE
  norm_num

/-- C2 amended: the same call stores 1.25 and leaves the at-limit flag false,
since the value moved from 0 to the upper limit. -/
theorem C2_amended_clamps_without_flag :
    (setArm1Angle initialControlState 2).arm1Angle = 125/100 ∧
    (setArm1Angle initialControlState 2).arm1AtLimit = false := by
  unfold setArm1Angle initialControlState clamp mathMax mathMin ARM1_MIN_ANGLE ARM1_MAX_ANGLE
  norm_num

lemma applyDeltas_nil (f : ControlState → ℚ → ControlState) (s : ControlState) :
    applyDeltas f s [] = s := rfl

lemma applyDeltas_cons (f : ControlState → ℚ → ControlState) (s : ControlState)
    (d : ℚ) (ds : List ℚ) : applyDeltas f s (d :: ds) = applyDeltas f (f s d) ds := rfl

lemma applyDeltas_yaw_sum (ds : List ℚ) (s : ControlState) :
    (applyDeltas setMainBodyRotation s ds).mainBodyRotation =
      s.mainBodyRotation + ds.sum := by
  induction ds generalizing s with
  | nil => simp [applyDeltas_nil]
  | cons d ds ih =>
      rw [applyDeltas_cons, ih]
      simp [setMainBodyRotation]
      ring

lemma applyDeltas_arm1_mem (ds : List ℚ) (s : ControlState)
    (h : ARM1_MIN_ANGLE ≤ s.arm1Angle ∧ s.arm1Angle ≤ ARM1_MAX_ANGLE) :
    ARM1_MIN_ANGLE ≤ (applyDeltas setArm1Angle s ds).arm1Angle ∧
      (applyDeltas setArm1Angle s ds).arm1Angle ≤ ARM1_MAX_ANGLE := by
  induction ds generalizing s with
  | nil => exact h
  | cons d ds ih =>
      rw [applyDeltas_cons]
      exact ih _ (clamp_mem _ _ _ (by unfold ARM1_MIN_ANGLE ARM1_MAX_ANGLE; norm_num))

lemma applyDeltas_arm2_mem (ds : List ℚ) (s : ControlState)
    (h : ARM2_MIN_ANGLE ≤ s.arm2Angle ∧ s.arm2Angle ≤ ARM2_MAX_ANGLE) :
    ARM2_MIN_ANGLE ≤ (applyDeltas setArm2Angle s ds).arm2Angle ∧
      (applyDeltas setArm2Angle s ds).arm2Angle ≤ ARM2_MAX_ANGLE := by
  induction ds generalizing s with
  | nil => exact h
  | cons d ds ih =>
      rw [applyDeltas_cons]
      exact ih _ (clamp_mem _ _ _ (by unfold ARM2_MIN_ANGLE ARM2_MAX_ANGLE; norm_num))

lemma applyDeltas_bucket_mem (ds : List ℚ) (s : ControlState)
    (h : BUCKET_MIN_ANGLE ≤ s.bucketAngle ∧ s.bucketAngle ≤ BUCKET_MAX_ANGLE) :
    BUCKET_MIN_ANGLE ≤ (applyDeltas setBucketAngle s ds).bucketAngle ∧
      (applyDeltas setBucketAngle s ds).bucketAngle ≤ BUCKET_MAX_ANGLE := by
  induction ds generalizing s with
  | nil => exact h
  | cons d ds ih =>
      rw [applyDeltas_cons]
      exact ih _ (clamp_mem _ _ _ (by unfold BUCKET_MIN_ANGLE BUCKET_MAX_ANGLE; norm_num))

lemma applyDeltas_thumb_mem (ds : List ℚ) (s : ControlState)
    (h : THUMB_MIN_ANGLE ≤ s.thumbAngle ∧ s.thumbAngle ≤ THUMB_MAX_ANGLE) :
    THUMB_MIN_ANGLE ≤ (applyDeltas setThumbAngle s ds).thumbAngle ∧
      (applyDeltas setThumbAngle s ds).thumbAngle ≤ THUMB_MAX_ANGLE := by
  induction ds generalizing s with
  | nil => exact h
  | cons d ds ih =>
      rw [applyDeltas_cons]
      exact ih _ (clamp_mem _ _ _ (by unfold THUMB_MIN_ANGLE THUMB_MAX_ANGLE; norm_num))

lemma applyDeltas_blade_mem (ds : List ℚ) (s : ControlState)
    (h : BLADE_MIN_HEIGHT ≤ s.bladeHeight ∧ s.bladeHeight ≤ BLADE_MAX_HEIGHT) :
    BLADE_MIN_HEIGHT ≤ (applyDeltas setBladeHeight s ds).bladeHeight ∧
      (applyDeltas setBladeHeight s ds).bladeHeight ≤ BLADE_MAX_HEIGHT := by
  induction ds generalizing s with
  | nil => exact h
  | cons d ds ih =>
      rw [applyDeltas_cons]
      exact ih _ (clamp_mem _ _ _ (by unfold BLADE_MIN_HEIGHT BLADE_MAX_HEIGHT; norm_num))

/-- C3 counterexample: the main-body yaw setter has no [min, max] range at
all; no pair of bounds confines the yaw value under all delta sequences from
the initial state, since a single delta of hi + 1 exceeds any upper bound hi. -/
theorem C3_counterexample :
    ¬ ∃ lo hi : ℚ, ∀ ds : List ℚ,
        lo ≤ (applyDeltas setMainBodyRotation initialControlState ds).mainBodyRotation ∧
        (applyDeltas setMainBodyRotation initialControlState ds).mainBodyRotation ≤ hi := by
  rintro ⟨lo, hi, h⟩
  have h1 := (h [hi + 1]).2
  rw [applyDeltas_yaw_sum] at h1
  simp [initialControlState] at h1
  linarith

/-- C3 amended: for the five clamped joint setters, any sequence of deltas
applied from the initial state keeps the stored value inside that joint's
fixed [min, max] range; the main-body yaw setter in contrast merely
accumulates: after any sequence its value is the plain sum of the deltas. -/
theorem C3_amended_limited_setters_stay_in_range (ds : List ℚ) :
    (ARM1_MIN_ANGLE ≤ (applyDeltas setArm1Angle initialControlState ds).arm1Angle ∧
      (applyDeltas setArm1Angle initialControlState ds).arm1Angle ≤ ARM1_MAX_ANGLE) ∧
    (ARM2_MIN_ANGLE ≤ (applyDeltas setArm2Angle initialControlState ds).arm2Angle ∧
      (applyDeltas setArm2Angle initialControlState ds).arm2Angle ≤ ARM2_MAX_ANGLE) ∧
    (BUCKET_MIN_ANGLE ≤ (applyDeltas setBucketAngle initialControlState ds).bucketAngle ∧
      (applyDeltas setBucketAngle initialControlState ds).bucketAngle ≤ BUCKET_MAX_ANGLE) ∧
    (THUMB_MIN_ANGLE ≤ (applyDeltas setThumbAngle initialControlState ds).thumbAngle ∧
      (applyDeltas setThumbAngle initialControlState ds).thumbAngle ≤ THUMB_MAX_ANGLE) ∧
    (BLADE_MIN_HEIGHT ≤ (applyDeltas setBladeHeight initialControlState ds).bladeHeight ∧
      (applyDeltas setBladeHeight initialControlState ds).bladeHeight ≤ BLADE_MAX_HEIGHT) ∧
    (applyDeltas setMainBodyRotation initialControlState ds).mainBodyRotation = ds.sum := by
  refine ⟨applyDeltas_arm1_mem ds _ ?_, applyDeltas_arm2_mem ds _ ?_,
    applyDeltas_bucket_mem ds _ ?_, applyDeltas_thumb_mem ds _ ?_,
    applyDeltas_blade_mem ds _ ?_, ?_⟩
  · unfold initialControlState ARM1_MIN_ANGLE ARM1_MAX_ANGLE; norm_num
  · unfold initialControlState ARM2_MIN_ANGLE ARM2_MAX_ANGLE; norm_num
  · unfold initialControlState BUCKET_MIN_ANGLE BUCKET_MAX_ANGLE; norm_num
  · unfold initialControlState THUMB_MIN_ANGLE THUMB_MAX_ANGLE; norm_num
  · unfold initialControlState BLADE_MIN_HEIGHT BLADE_MAX_HEIGHT; norm_num
  · rw [applyDeltas_yaw_sum]; simp [initialControlState]

/-- The dimension constants of the Excavator class that enter the
createPhysics volume computation. -/
structure Dimensions where
  BASE_WIDTH : ℚ
  BASE_LENGTH : ℚ
  BASE_HEIGHT : ℚ
  TREAD_WIDTH : ℚ
  TREAD_HEIGHT : ℚ
  BLADE_WIDTH : ℚ
  BLADE_HEIGHT : ℚ
  BLADE_FORWARD_OFFSET : ℚ
  BODY_BASE_WIDTH_MULT : ℚ
  BODY_BASE_HEIGHT_MULT : ℚ
  BODY_BASE_LENGTH_MULT : ℚ
  ARM1_WIDTH : ℚ
  ARM1_LENGTH : ℚ
  ARM2_WIDTH : ℚ
  ARM2_LENGTH : ℚ
  BUCKET_SIZE : ℚ
  BUCKET_HEIGHT_MULT : ℚ
  THUMB_WIDTH : ℚ
  THUMB_LENGTH : ℚ
  THUMB_DEPTH : ℚ
deriving DecidableEq

/-- The dimension constants as initialized in the Excavator class. -/
def defaultDimensions : Dimensions where
  BASE_WIDTH := 1
  BASE_LENGTH := 2
  BASE_HEIGHT := 2/10
  TREAD_WIDTH := 25/100
  TREAD_HEIGHT := 4/10
  BLADE_WIDTH := 16/10
  BLADE_HEIGHT := 4/10
  BLADE_FORWARD_OFFSET := 1/10
  BODY_BASE_WIDTH_MULT := 14/10
  BODY_BASE_HEIGHT_MULT := 1
  BODY_BASE_LENGTH_MULT := 8/10
  ARM1_WIDTH := 3/10
  ARM1_LENGTH := 28/10
  ARM2_WIDTH := 2/10
  ARM2_LENGTH := 15/10
  BUCKET_SIZE := 5/10
  BUCKET_HEIGHT_MULT := 8/10
  THUMB_WIDTH := 3/10
  THUMB_LENGTH := 8/10
  THUMB_DEPTH := 1/10

-- Volumes exactly as computed in Excavator.createPhysics.
def chassisVolume (dm : Dimensions) : ℚ :=
  (dm.BASE_WIDTH + dm.TREAD_WIDTH * 2) * (dm.BASE_HEIGHT + dm.TREAD_HEIGHT) * dm.BASE_LENGTH

def bladeVolume (dm : Dimensions) : ℚ :=
  dm.BLADE_WIDTH * dm.BLADE_HEIGHT * dm.BLADE_FORWARD_OFFSET

def mainBodyVolume (dm : Dimensions) : ℚ :=
  (dm.BASE_WIDTH * dm.BODY_BASE_WIDTH_MULT) * (dm.BASE_WIDTH * dm.BODY_BASE_HEIGHT_MULT) *
    (dm.BASE_LENGTH * dm.BODY_BASE_LENGTH_MULT)

def arm1SegmentLength (dm : Dimensions) : ℚ := dm.ARM1_LENGTH / 2

def arm1Part1Volume (dm : Dimensions) : ℚ :=
  dm.ARM1_WIDTH * arm1SegmentLength dm * dm.ARM1_WIDTH

def arm1Part2Volume (dm : Dimensions) : ℚ :=
  dm.ARM1_WIDTH * arm1SegmentLength dm * dm.ARM1_WIDTH

def arm2Volume (dm : Dimensions) : ℚ :=
  dm.ARM2_WIDTH * dm.ARM2_LENGTH * dm.ARM2_WIDTH

def bucketVolume (dm : Dimensions) : ℚ :=
  dm.BUCKET_SIZE * (dm.BUCKET_SIZE * dm.BUCKET_HEIGHT_MULT) * dm.BUCKET_SIZE

def thumbVolume (dm : Dimensions) : ℚ :=
  dm.THUMB_WIDTH * dm.THUMB_LENGTH * dm.THUMB_DEPTH

def totalVolume (dm : Dimensions) : ℚ :=
  chassisVolume dm + bladeVolume dm + mainBodyVolume dm + arm1Part1Volume dm +
    arm1Part2Volume dm + arm2Volume dm + bucketVolume dm + thumbVolume dm

/-- totalMass = 907 (2000 lbs in kg). -/
def totalMass : ℚ := 907

-- Mass distribution proportional to volume, as in Excavator.createPhysics.
def chassisMass (dm : Dimensions) : ℚ := chassisVolume dm / totalVolume dm * totalMass

def bladeMass (dm : Dimensions) : ℚ := bladeVolume dm / totalVolume dm * totalMass

def mainBodyMass (dm : Dimensions) : ℚ := mainBodyVolume dm / totalVolume dm * totalMass

def arm1Part1Mass (dm : Dimensions) : ℚ := arm1Part1Volume dm / totalVolume dm * totalMass

def arm1Part2Mass (dm : Dimensions) : ℚ := arm1Part2Volume dm / totalVolume dm * totalMass

def arm2Mass (dm : Dimensions) : ℚ := arm2Volume dm / totalVolume dm * totalMass

def bucketMass (dm : Dimensions) : ℚ := bucketVolume dm / totalVolume dm * totalMass

def thumbMass (dm : Dimensions) : ℚ := thumbVolume dm / totalVolume dm * totalMass

/-- Sum of the masses of the seven kinematic proxy bodies (the chassis body
is the eighth, dynamic, body and is excluded here). -/
def proxyMassSum (dm : Dimensions) : ℚ :=
  bladeMass dm + mainBodyMass dm + arm1Part1Mass dm + arm1Part2Mass dm +
    arm2Mass dm + bucketMass dm + thumbMass dm

/-- C4 counterexample: with the dimension constants of the source, the seven
proxy-part masses sum to 907 · 137/227 = 124259/227 ≈ 547.4 kg, not 907 kg;
the chassis (the eighth, dynamic body) carries the remainder. -/
theorem C4_counterexample : ¬ proxyMassSum defaultDimensions = 907 := by
  unfold proxyMassSum bladeMass mainBodyMass arm1Part1Mass arm1Part2Mass
    arm2Mass bucketMass thumbMass totalVolume chassisVolume bladeVolume
    mainBodyVolume arm1Part1Volume arm1Part2Volume arm2Volume bucketVolume
    thumbVolume arm1SegmentLength totalMass defaultDimensions
  norm_num

/-- C4 amended: at construction the masses of all eight physics bodies — the
dynamic chassis plus the seven kinematic proxies — sum to the fixed total
vehicle mass constant of 907 kg, for any dimension constants whose total
volume is nonzero. -/
theorem C4_amended_total_mass_conserved (dm : Dimensions)
    (h : totalVolume dm ≠ 0) :
    chassisMass dm + proxyMassSum dm = totalMass := by
  unfold proxyMassSum chassisMass bladeMass mainBodyMass arm1Part1Mass
    arm1Part2Mass arm2Mass bucketMass thumbMass totalMass
  field_simp
  unfold totalVolume
  ring

/-- C4 witness: the amended mass-conservation theorem instantiated at the
source's dimension constants, where the total volume 227/50 is nonzero. -/
theorem C4_amended_witness :
    totalVolume defaultDimensions ≠ 0 ∧
    chassisMass defaultDimensions + proxyMassSum defaultDimensions = totalMass := by
  have h : totalVolume defaultDimensions ≠ 0 := by
    unfold totalVolume chassisVolume bladeVolume mainBodyVolume arm1Part1Volume
      arm1Part2Volume arm2Volume bucketVolume thumbVolume arm1SegmentLength
      defaultDimensions
    norm_num
  exact ⟨h, C4_amended_total_mass_conserved defaultDimensions h⟩

/-- CANNON.Vec3 over exact rationals. -/
structure Vec3 where
  x : ℚ
  y : ℚ
  z : ℚ
deriving DecidableEq

/-- CANNON.Vec3.vadd. -/
def Vec3.vadd (a b : Vec3) : Vec3 := ⟨a.x + b.x, a.y + b.y, a.z + b.z⟩

/-- CANNON.Vec3.vsub. -/
def Vec3.vsub (a b : Vec3) : Vec3 := ⟨a.x - b.x, a.y - b.y, a.z - b.z⟩

/-- CANNON.Vec3.scale. -/
def Vec3.scale (a : Vec3) (s : ℚ) : Vec3 := ⟨a.x * s, a.y * s, a.z * s⟩

/-- CANNON.Vec3.cross. -/
def Vec3.cross (a b : Vec3) : Vec3 :=
  ⟨a.y * b.z - a.z * b.y, a.z * b.x - a.x * b.z, a.x * b.y - a.y * b.x⟩

def Vec3.zero : Vec3 := ⟨0, 0, 0⟩

/-- CANNON.Quaternion over exact rationals. -/
structure Quaternion where
  x : ℚ
  y : ℚ
  z : ℚ
  w : ℚ
deriving DecidableEq

/-- CANNON.Quaternion.vmult: rotate vector v by quaternion q (q * v * q⁻¹),
with the intermediate products written exactly as in cannon-es. -/
def Quaternion.vmult (q : Quaternion) (v : Vec3) : Vec3 :=
  let ix := q.w * v.x + q.y * v.z - q.z * v.y
  let iy := q.w * v.y + q.z * v.x - q.x * v.z
  let iz := q.w * v.z + q.x * v.y - q.y * v.x
  let iw := -q.x * v.x - q.y * v.y - q.z * v.z
  ⟨ix * q.w + iw * -q.x + iy * -q.z - iz * -q.y,
   iy * q.w + iw * -q.y + iz * -q.x - ix * -q.z,
   iz * q.w + iw * -q.z + ix * -q.y - iy * -q.x⟩

def Quaternion.identity : Quaternion := ⟨0, 0, 0, 1⟩

-- Physics collision force settings of the Excavator class.
def COLLISION_FORCE_MULTIPLIER : ℚ := 1000

def PENETRATION_FORCE_MULTIPLIER : ℚ := 2

/-- Excavator.checkKinematicCollisions, bottom-point computation: the world
Y of the bottom of a proxy body's box, pos.y + (q · (0, -halfExtents.y, 0)).y. -/
def bottomY (position : Vec3) (quaternion : Quaternion) (halfExtents : Vec3) : ℚ :=
  position.y + (quaternion.vmult ⟨0, -halfExtents.y, 0⟩).y

/-- Excavator.checkKinematicCollisions, force magnitude for a given
penetration depth: COLLISION_FORCE_MULTIPLIER · (1 + penetration · PENETRATION_FORCE_MULTIPLIER). -/
def groundForceMagnitude (penetration : ℚ) : ℚ :=
  COLLISION_FORCE_MULTIPLIER * (1 + penetration * PENETRATION_FORCE_MULTIPLIER)

/-- Excavator.checkKinematicCollisions, force applied for one proxy body:
zero when the bottom is at or above the 0.01 threshold, otherwise the
world-up normal (0,1,0) scaled by the magnitude at depth |bottomY|. -/
def groundContactForce (position : Vec3) (quaternion : Quaternion)
    (halfExtents : Vec3) : Vec3 :=
  let bY := bottomY position quaternion halfExtents
  if bY < 1/100 then
    Vec3.scale ⟨0, 1, 0⟩ (groundForceMagnitude |bY|)
  else
    Vec3.zero

/-- C5: the ground-contact detector applies zero force whenever a part's
bottom world Y is at or above the 0.01 threshold; when the part penetrates, it
applies the up-directed force of magnitude base · (1 + depth · gain) at depth
|bottomY|, and that magnitude is strictly increasing in the depth. -/
theorem C5_ground_force_zero_or_increasing (position : Vec3)
    (quaternion : Quaternion) (halfExtents : Vec3) (d1 d2 : ℚ) (h12 : d1 < d2) :
    (1/100 ≤ bottomY position quaternion halfExtents →
      groundContactForce position quaternion halfExtents = Vec3.zero) ∧
    (bottomY position quaternion halfExtents < 1/100 →
      groundContactForce position quaternion halfExtents =
        ⟨0, groundForceMagnitude |bottomY position quaternion halfExtents|, 0⟩) ∧
    groundForceMagnitude d1 < groundForceMagnitude d2 := by
  refine ⟨?_, ?_, ?_⟩
  · intro h
    unfold groundContactForce
    rw [if_neg (not_lt.mpr h)]
  · intro h
    unfold groundContactForce
    rw [if_pos h]
    unfold Vec3.scale
    simp
  · unfold groundForceMagnitude COLLISION_FORCE_MULTIPLIER PENETRATION_FORCE_MULTIPLIER
    linarith

/-- C5 witness: the theorem applied at a concrete resting pose (a unit box
sitting exactly on the threshold never gets a force) and at depths 0 < 1. -/
theorem C5_witness :
    (0 : ℚ) < 1 ∧
    ((1/100 ≤ bottomY ⟨0, 51/100, 0⟩ Quaternion.identity ⟨1/2, 1/2, 1/2⟩ →
        groundContactForce ⟨0, 51/100, 0⟩ Quaternion.identity ⟨1/2, 1/2, 1/2⟩ = Vec3.zero) ∧
      (bottomY ⟨0, 51/100, 0⟩ Quaternion.identity ⟨1/2, 1/2, 1/2⟩ < 1/100 →
        groundContactForce ⟨0, 51/100, 0⟩ Quaternion.identity ⟨1/2, 1/2, 1/2⟩ =
          ⟨0, groundForceMagnitude |bottomY ⟨0, 51/100, 0⟩ Quaternion.identity ⟨1/2, 1/2, 1/2⟩|, 0⟩) ∧
      groundForceMagnitude 0 < groundForceMagnitude 1) :=
  ⟨zero_lt_one,
   C5_ground_force_zero_or_increasing ⟨0, 51/100, 0⟩ Quaternion.identity
     ⟨1/2, 1/2, 1/2⟩ 0 1 zero_lt_one⟩

/-- C6: the spec scenario — box half-extents (0.15, 0.2, 0.15) at world
position (0, 0.19, 0) with identity orientation has bottom world Y = -0.01,
is classified as penetrating (-0.01 < 0.01) at depth 0.01, and receives an
upward force of magnitude base · (1 + 0.01 · gain) = 1020. -/
theorem C6_scenario_bottom_and_force :
    bottomY ⟨0, 19/100, 0⟩ Quaternion.identity ⟨15/100, 2/10, 15/100⟩ = -(1/100) ∧
    bottomY ⟨0, 19/100, 0⟩ Quaternion.identity ⟨15/100, 2/10, 15/100⟩ < 1/100 ∧
    |bottomY ⟨0, 19/100, 0⟩ Quaternion.identity ⟨15/100, 2/10, 15/100⟩| = 1/100 ∧
    groundContactForce ⟨0, 19/100, 0⟩ Quaternion.identity ⟨15/100, 2/10, 15/100⟩ =
      ⟨0, COLLISION_FORCE_MULTIPLIER * (1 + 1/100 * PENETRATION_FORCE_MULTIPLIER), 0⟩ ∧
    COLLISION_FORCE_MULTIPLIER * (1 + 1/100 * PENETRATION_FORCE_MULTIPLIER) = 1020 := by
  have hb : bottomY ⟨0, 19/100, 0⟩ Quaternion.identity ⟨15/100, 2/10, 15/100⟩ = -(1/100) := by
    unfold bottomY Quaternion.vmult Quaternion.identity
    norm_num
  refine ⟨hb, ?_, ?_, ?_, ?_⟩
  · rw [hb]; norm_num
  · rw [hb]; norm_num
  · unfold groundContactForce
    rw [hb]
    norm_num
    unfold groundForceMagnitude Vec3.scale COLLISION_FORCE_MULTIPLIER
      PENETRATION_FORCE_MULTIPLIER
    rw [abs_of_nonneg (by norm_num : (0:ℚ) ≤ 1/100)]
    norm_num
  · unfold COLLISION_FORCE_MULTIPLIER PENETRATION_FORCE_MULTIPLIER
    norm_num

/-- The CollisionData record of the Excavator module (timestamps in
milliseconds, as from Date.now()). -/
structure CollisionData where
  partName : String
  timestamp : ℤ
  contactNormal : Vec3
  appliedForce : Vec3
  isActive : Bool
deriving DecidableEq

/-- JS Map.set keyed by part name: overwrite the first entry with this key,
or append a fresh entry at the end (JS Map preserves insertion order). -/
def ledgerSet (l : List (String × CollisionData)) (key : String)
    (data : CollisionData) : List (String × CollisionData) :=
  match l with
  | [] => [(key, data)]
  | (k, d) :: rest =>
      if k = key then (k, data) :: rest else (k, d) :: ledgerSet rest key data

/-- The physics debug state of the Excavator class: the collisionEvents map
and the two counters. -/
structure PhysicsDebugState where
  collisionEvents : List (String × CollisionData)
  totalCollisions : ℕ
  frameCollisions : ℕ
deriving DecidableEq

/-- The collision-tracking tail of Excavator.checkKinematicCollisions and of
the collide handlers: bump both counters and overwrite this part's entry
with a fresh active record. -/
def trackCollision (st : PhysicsDebugState) (name : String) (now : ℤ)
    (normal force : Vec3) : PhysicsDebugState :=
  { st with
    totalCollisions := st.totalCollisions + 1
    frameCollisions := st.frameCollisions + 1
    collisionEvents := ledgerSet st.collisionEvents name
      ⟨name, now, normal, force, true⟩ }

/-- Excavator.resetFrameCollisions: zero the per-frame counter and mark the
entries whose last update lies more than 100 ms in the past as inactive. -/
def resetFrameCollisions (now : ℤ) (st : PhysicsDebugState) : PhysicsDebugState :=
  { st with
    frameCollisions := 0
    collisionEvents := st.collisionEvents.map fun p =>
      if now - p.2.timestamp > 100 then (p.1, { p.2 with isActive := false }) else p }

lemma ledgerSet_keys (l : List (String × CollisionData)) (key : String)
    (data : CollisionData) :
    (ledgerSet l key data).map Prod.fst =
      if key ∈ l.map Prod.fst then l.map Prod.fst
      else l.map Prod.fst ++ [key] := by
  induction l with
  | nil => simp [ledgerSet]
  | cons hd tl ih =>
      obtain ⟨k, d⟩ := hd
      by_cases hk : k = key
      · subst hk
        simp [ledgerSet]
      · by_cases hmem : key ∈ tl.map Prod.fst <;>
          simp [ledgerSet, hk, ih, hmem, Ne.symm hk]

lemma ledgerSet_nodup (l : List (String × CollisionData)) (key : String)
    (data : CollisionData) (h : (l.map Prod.fst).Nodup) :
    ((ledgerSet l key data).map Prod.fst).Nodup := by
  rw [ledgerSet_keys]
  by_cases hmem : key ∈ l.map Prod.fst
  · simpa [hmem] using h
  · simp [hmem, List.nodup_append, h]

lemma ledgerSet_lookup (l : List (String × CollisionData)) (key : String)
    (data : CollisionData) :
    (ledgerSet l key data).lookup key = some data := by
  induction l with
  | nil => simp [ledgerSet, List.lookup]
  | cons hd tl ih =>
      obtain ⟨k, d⟩ := hd
      by_cases hk : k = key
      · subst hk
        simp [ledgerSet, List.lookup]
      · have hb : (key == k) = false := beq_eq_false_iff_ne.mpr (Ne.symm hk)
        simp [ledgerSet, hk, List.lookup, hb, ih]

/-- C7: the collision ledger keeps at most one entry per part name — a
repeated contact overwrites the existing entry (the key list is unchanged
when the part is already present, extended by exactly that name otherwise,
and stays duplicate-free), and the overwritten entry holds the new record;
the frame-start aging pass drops no entry and sets an entry's active flag to
false exactly when more than 100 ms have elapsed since its timestamp,
leaving every other field and every younger entry's flag unchanged. -/
theorem C7_ledger_overwrite_and_aging (st : PhysicsDebugState) (name : String)
    (now : ℤ) (normal force : Vec3)
    (hnd : (st.collisionEvents.map Prod.fst).Nodup) :
    ((trackCollision st name now normal force).collisionEvents.map Prod.fst =
      if name ∈ st.collisionEvents.map Prod.fst then st.collisionEvents.map Prod.fst
      else st.collisionEvents.map Prod.fst ++ [name]) ∧
    ((trackCollision st name now normal force).collisionEvents.map Prod.fst).Nodup ∧
    ((trackCollision st name now normal force).collisionEvents.lookup name =
      some ⟨name, now, normal, force, true⟩) ∧
    ((resetFrameCollisions now st).collisionEvents.map Prod.fst =
      st.collisionEvents.map Prod.fst) ∧
    ((resetFrameCollisions now st).collisionEvents =
      st.collisionEvents.map fun p =>
        (p.1, ⟨p.2.partName, p.2.timestamp, p.2.contactNormal, p.2.appliedForce,
          if now - p.2.timestamp > 100 then false else p.2.isActive⟩)) := by
  refine ⟨ledgerSet_keys _ _ _, ledgerSet_nodup _ _ _ hnd, ledgerSet_lookup _ _ _,
    ?_, ?_⟩
  · unfold resetFrameCollisions
    simp only [List.map_map]
    apply List.map_congr_left
    intro p _
    by_cases hp : now - p.2.timestamp > 100 <;> simp [hp]
  · unfold resetFrameCollisions
    simp only
    apply List.map_congr_left
    intro p _
    obtain ⟨k, pn, ts, cn, af, ia⟩ := p
    by_cases hp : now - ts > 100 <;> simp [hp]

/-- A one-entry ledger state used to instantiate the ledger theorem: the
Bucket part touched the ground at time 0. -/
def exampleDebugState : PhysicsDebugState where
  collisionEvents :=
    [("Bucket", ⟨"Bucket", 0, ⟨0, 1, 0⟩, ⟨0, 1020, 0⟩, true⟩)]
  totalCollisions := 1
  frameCollisions := 1

/-- C7 witness: the ledger theorem applied to a concrete one-entry state
(whose key list is duplicate-free by computation), recording a repeated
Bucket contact and running the aging pass at time 200, which retires the
time-0 entry. -/
theorem C7_witness :
    ((exampleDebugState.collisionEvents.map Prod.fst).Nodup) ∧
    (((trackCollision exampleDebugState "Bucket" 200 ⟨0, 1, 0⟩ ⟨0, 1000, 0⟩).collisionEvents.map Prod.fst =
        if "Bucket" ∈ exampleDebugState.collisionEvents.map Prod.fst
        then exampleDebugState.collisionEvents.map Prod.fst
        else exampleDebugState.collisionEvents.map Prod.fst ++ ["Bucket"]) ∧
      ((trackCollision exampleDebugState "Bucket" 200 ⟨0, 1, 0⟩ ⟨0, 1000, 0⟩).collisionEvents.map Prod.fst).Nodup ∧
      ((trackCollision exampleDebugState "Bucket" 200 ⟨0, 1, 0⟩ ⟨0, 1000, 0⟩).collisionEvents.lookup "Bucket" =
        some ⟨"Bucket", 200, ⟨0, 1, 0⟩, ⟨0, 1000, 0⟩, true⟩) ∧
      ((resetFrameCollisions 200 exampleDebugState).collisionEvents.map Prod.fst =
        exampleDebugState.collisionEvents.map Prod.fst) ∧
      ((resetFrameCollisions 200 exampleDebugState).collisionEvents =
        exampleDebugState.collisionEvents.map fun p =>
          (p.1, ⟨p.2.partName, p.2.timestamp, p.2.contactNormal, p.2.appliedForce,
            if (200 : ℤ) - p.2.timestamp > 100 then false else p.2.isActive⟩))) :=
  ⟨by simp [exampleDebugState],
   C7_ledger_overwrite_and_aging exampleDebugState "Bucket" 200 ⟨0, 1, 0⟩
     ⟨0, 1000, 0⟩ (by simp [exampleDebugState])⟩

/-- The normalized controller state shared by GamepadController and
KeyboardController (GamepadState interface). -/
structure GamepadState where
  leftStickX : ℚ
  leftStickY : ℚ
  rightStickX : ℚ
  rightStickY : ℚ
  leftTrigger : ℚ
  rightTrigger : ℚ
  leftBumper : Bool
  rightBumper : Bool
  dpadUp : Bool
  dpadDown : Bool
  buttonY : Bool
  buttonA : Bool
deriving DecidableEq

/-- The merged controller state computed at the top of
ExcavatorSimulator.handleControls. -/
structure MergedInput where
  leftStickX : ℚ
  leftStickY : ℚ
  rightStickX : ℚ
  rightStickY : ℚ
  leftTrigger : ℚ
  rightTrigger : ℚ
  leftBumper : Bool
  rightBumper : Bool
  dpadUp : Bool
  dpadDown : Bool
  buttonY : Bool
  buttonA : Bool
deriving DecidableEq

/-- ExcavatorSimulator.handleControls merging: each stick axis is
Math.max(-1, Math.min(1, gamepad + keyboard)), each trigger is the max of the
two sources, each button is the logical OR. -/
def mergeInputs (gamepadState keyboardState : GamepadState) : MergedInput where
  leftStickX := mathMax (-1) (mathMin 1 (gamepadState.leftStickX + keyboardState.leftStickX))
  leftStickY := mathMax (-1) (mathMin 1 (gamepadState.leftStickY + keyboardState.leftStickY))
  rightStickX := mathMax (-1) (mathMin 1 (gamepadState.rightStickX + keyboardState.rightStickX))
  rightStickY := mathMax (-1) (mathMin 1 (gamepadState.rightStickY + keyboardState.rightStickY))
  leftTrigger := mathMax gamepadState.leftTrigger keyboardState.leftTrigger
  rightTrigger := mathMax gamepadState.rightTrigger keyboardState.rightTrigger
  leftBumper := gamepadState.leftBumper || keyboardState.leftBumper
  rightBumper := gamepadState.rightBumper || keyboardState.rightBumper
  dpadUp := gamepadState.dpadUp || keyboardState.dpadUp
  dpadDown := gamepadState.dpadDown || keyboardState.dpadDown
  buttonY := gamepadState.buttonY || keyboardState.buttonY
  buttonA := gamepadState.buttonA || keyboardState.buttonA

/-- A controller state with only leftStickX deflected, all other axes and
buttons at rest. -/
def leftStickOnly (v : ℚ) : GamepadState where
  leftStickX := v
  leftStickY := 0
  rightStickX := 0
  rightStickY := 0
  leftTrigger := 0
  rightTrigger := 0
  leftBumper := false
  rightBumper := false
  dpadUp := false
  dpadDown := false
  buttonY := false
  buttonA := false

/-- C8: every merged analog stick axis equals the sum of the gamepad and
keyboard contributions clamped into [-1, 1]; in particular gamepad
leftStickX = 0.6 combined with keyboard leftStickX = 0.6 merges to exactly 1,
not 1.2. -/
theorem C8_merge_additive_clamp (g k : GamepadState) :
    (mergeInputs g k).leftStickX = clamp (g.leftStickX + k.leftStickX) (-1) 1 ∧
    (mergeInputs g k).leftStickY = clamp (g.leftStickY + k.leftStickY) (-1) 1 ∧
    (mergeInputs g k).rightStickX = clamp (g.rightStickX + k.rightStickX) (-1) 1 ∧
    (mergeInputs g k).rightStickY = clamp (g.rightStickY + k.rightStickY) (-1) 1 ∧
    (mergeInputs (leftStickOnly (6/10)) (leftStickOnly (6/10))).leftStickX = 1 := by
  refine ⟨rfl, rfl, rfl, rfl, ?_⟩
  unfold mergeInputs leftStickOnly mathMax mathMin
  norm_num

/-- The sequential assignments computing the left tread speed inside
ExcavatorSimulator.handleControls: start at 0, overwrite with the trigger if
positive, then overwrite with -1 if the bumper is held. -/
def leftTreadSpeed (m : MergedInput) : ℚ :=
  let s0 : ℚ := 0
  let s1 := if m.leftTrigger > 0 then m.leftTrigger else s0
  let s2 := if m.leftBumper then -1 else s1
  s2

/-- The sequential assignments computing the right tread speed inside
ExcavatorSimulator.handleControls. -/
def rightTreadSpeed (m : MergedInput) : ℚ :=
  let s0 : ℚ := 0
  let s1 := if m.rightTrigger > 0 then m.rightTrigger else s0
  let s2 := if m.rightBumper then -1 else s1
  s2

/-- The (leftSpeed, rightSpeed) pair that handleControls passes to both
setTreadForces and applyTreadForces. -/
def handleControlsTreadSpeeds (g k : GamepadState) : ℚ × ℚ :=
  (leftTreadSpeed (mergeInputs g k), rightTreadSpeed (mergeInputs g k))

/-- C10: in handleControls an active backward bumper overrides the forward
trigger on the same side — whenever the merged leftBumper is true the left
tread speed passed on is exactly -1 regardless of the triggers, and
symmetrically for the right side. -/
theorem C10_bumper_overrides_trigger (g k : GamepadState) :
    ((mergeInputs g k).leftBumper = true →
      (handleControlsTreadSpeeds g k).1 = -1) ∧
    ((mergeInputs g k).rightBumper = true →
      (handleControlsTreadSpeeds g k).2 = -1) := by
  constructor
  · intro h
    unfold handleControlsTreadSpeeds leftTreadSpeed
    simp [h]
  · intro h
    unfold handleControlsTreadSpeeds rightTreadSpeed
    simp [h]

/-- A controller state holding both bumpers and both triggers fully on. -/
def bumpersAndTriggers : GamepadState where
  leftStickX := 0
  leftStickY := 0
  rightStickX := 0
  rightStickY := 0
  leftTrigger := 1
  rightTrigger := 1
  leftBumper := true
  rightBumper := true
  dpadUp := false
  dpadDown := false
  buttonY := false
  buttonA := false

/-- C10 witness: with the gamepad holding both bumpers and both triggers and
the keyboard idle, both tread speeds come out as -1. -/
theorem C10_witness :
    (handleControlsTreadSpeeds bumpersAndTriggers (leftStickOnly 0)).1 = -1 ∧
    (handleControlsTreadSpeeds bumpersAndTriggers (leftStickOnly 0)).2 = -1 :=
  ⟨(C10_bumper_overrides_trigger bumpersAndTriggers (leftStickOnly 0)).1 rfl,
   (C10_bumper_overrides_trigger bumpersAndTriggers (leftStickOnly 0)).2 rfl⟩

/-- The state of the dynamic CANNON.Body for the chassis that
applyTreadForces touches: pose, velocities and the per-step force/torque
accumulators. -/
structure Body where
  position : Vec3
  quaternion : Quaternion
  velocity : Vec3
  angularVelocity : Vec3
  force : Vec3
  torque : Vec3
deriving DecidableEq

/-- CANNON.Body.applyForce on a dynamic body: add the force to the force
accumulator and relativePoint × force to the torque accumulator. -/
def Body.applyForce (b : Body) (force : Vec3) (relativePoint : Vec3) : Body :=
  { b with
    force := b.force.vadd force
    torque := b.torque.vadd (relativePoint.cross force) }

/-- CANNON.Body.applyTorque on a dynamic body: add to the torque
accumulator. -/
def Body.applyTorque (b : Body) (torque : Vec3) : Body :=
  { b with torque := b.torque.vadd torque }

/-- Excavator.applyTreadForces: rotate (0,0,1) into the world forward
direction, apply average(left, right) · 1500 along it at the center of mass
(cannon's default relativePoint (0,0,0)), then apply the yaw torque
(right - left) · 200 about the vertical axis. -/
def applyTreadForces (b : Body) (leftSpeed rightSpeed : ℚ) : Body :=
  let forceStrength : ℚ := 1500
  let torqueStrength : ℚ := 200
  let forward := b.quaternion.vmult ⟨0, 0, 1⟩
  let avgSpeed := (leftSpeed + rightSpeed) / 2
  let force := forward.scale (avgSpeed * forceStrength)
  let b1 := b.applyForce force Vec3.zero
  let diff := rightSpeed - leftSpeed
  let torque : Vec3 := ⟨0, diff * torqueStrength, 0⟩
  b1.applyTorque torque

/-- C9: for tread speeds in [-1, 1], applyTreadForces adds exactly the
forward force average(left, right) · 1500 directed along the chassis's
current world forward direction (orientation applied to (0,0,1)) to the
force accumulator — applied at the center of mass, so it contributes no
torque — and adds the yaw torque (right - left) · 200 about the vertical
axis to the torque accumulator, changing no other chassis state. -/
theorem C9_tread_forces (b : Body) (leftSpeed rightSpeed : ℚ)
    (hl : -1 ≤ leftSpeed ∧ leftSpeed ≤ 1) (hr : -1 ≤ rightSpeed ∧ rightSpeed ≤ 1) :
    applyTreadForces b leftSpeed rightSpeed =
      { b with
        force := b.force.vadd
          ((b.quaternion.vmult ⟨0, 0, 1⟩).scale ((leftSpeed + rightSpeed) / 2 * 1500))
        torque := b.torque.vadd ⟨0, (rightSpeed - leftSpeed) * 200, 0⟩ } := by
  unfold applyTreadForces Body.applyForce Body.applyTorque
  obtain ⟨px, py, pz⟩ := b.torque
  simp [Vec3.vadd, Vec3.cross, Vec3.zero]

/-- C9 witness: the theorem applied with full forward left tread and full
backward right tread to a unit-oriented body at rest. -/
theorem C9_witness :
    ((-1 ≤ (1 : ℚ) ∧ (1 : ℚ) ≤ 1) ∧ (-1 ≤ (-1 : ℚ) ∧ (-1 : ℚ) ≤ 1)) ∧
    applyTreadForces ⟨Vec3.zero, Quaternion.identity, Vec3.zero, Vec3.zero, Vec3.zero, Vec3.zero⟩ 1 (-1) =
      { position := Vec3.zero, quaternion := Quaternion.identity,
        velocity := Vec3.zero, angularVelocity := Vec3.zero,
        force := Vec3.zero.vadd
          ((Quaternion.identity.vmult ⟨0, 0, 1⟩).scale ((1 + -1) / 2 * 1500)),
        torque := Vec3.zero.vadd ⟨0, (-1 - 1) * 200, 0⟩ } :=
  ⟨⟨⟨by norm_num, le_refl 1⟩, ⟨le_refl (-1), by norm_num⟩⟩,
   C9_tread_forces ⟨Vec3.zero, Quaternion.identity, Vec3.zero, Vec3.zero, Vec3.zero, Vec3.zero⟩
     1 (-1) ⟨by norm_num, le_refl 1⟩ ⟨le_refl (-1), by norm_num⟩⟩
